import Mathlib

/-!
Shallow embedding of `src/landlab/components/aquatic_habitat/aquatic_habitat.py`.

The component `AquaticHabitat` stores a species name and a method flag.  Its
node fields live on a landlab grid; the component only ever reads the fields
`surface_water__depth` and `surface_water__velocity`.  Grid node values are
modelled as rational numbers (the Python code computes with floats; the claims
are about the exact piecewise-linear mathematics, so we use exact arithmetic).

Effects are made explicit: each Python method becomes a Lean function that
takes the grid, and returns the (possibly updated) grid, the list of lines it
prints, and its Python return value.  A Python function body with no `return`
statement returns `None`, modelled as `Option.none`.  `run_one_step`
additionally records the names of the component methods it invokes, in call
order, so that claims about dispatch are statable.  `scipy.interpolate.interp1d`
with kind linear and the default `bounds_error=True` raises `ValueError` when a
query point lies outside the breakpoint range; fallible evaluation is modelled
with `Except String`.
-/

namespace AquaticHabitat

/-- One line of printed output: either a plain message or a printed numeric
array (numpy prints the array of values). -/
inductive Output where
  | msg (s : String)
  | arr (xs : List ℚ)
deriving DecidableEq, Repr

/-- The at-node fields of the landlab grid that the component reads or that its
docstring mentions, plus all remaining at-node fields kept as an association
list, so that frame claims about every node field are statable.  Each field is
a list of per-node values. -/
structure Grid where
  surface_water_depth : List ℚ
  surface_water_velocity : List ℚ
  topographic_elevation : List ℚ
  otherFields : List (String × List ℚ)
deriving DecidableEq, Repr

/-- The number of grid nodes. -/
def Grid.numberOfNodes (g : Grid) : Nat := g.surface_water_depth.length

/-- The state `__init__` stores on the component: `self._species`,
`self._method`, and the two zero arrays `self._I` and `self._dzdt`. -/
structure Self where
  species : String
  method : String
  I : List ℚ
  dzdt : List ℚ
deriving DecidableEq, Repr

/-- Embeds `AquaticHabitat.__init__(grid, species, method, ...)`, whose default
arguments are the species salmon and the method HSI: stores the species and
method and two zero arrays at nodes. -/
def init (g : Grid) (species : String := "salmon") (method : String := "HSI") :
    Self :=
  { species := species
    method := method
    I := List.replicate g.numberOfNodes 0
    dzdt := List.replicate g.numberOfNodes 0 }

/-- Embeds `scipy.interpolate.interp1d(xs, ys, kind=linear)` evaluated at one query
point `q`, over the list of breakpoints `pts` (pairs of x and y, with strictly
increasing x in the use below).  With the default `bounds_error=True`, a query
below the first or above the last x raises `ValueError`.  Inside the range, the
value is obtained by linear interpolation on the segment containing `q`. -/
def interpSegs : List (ℚ × ℚ) → ℚ → Except String ℚ
  | [], _ => .error "ValueError"
  | (x1, y1) :: rest, q =>
      match rest with
      | [] => if q = x1 then .ok y1 else .error "ValueError"
      | (x2, y2) :: _ =>
          if q < x1 then .error "ValueError"
          else if q ≤ x2 then .ok (y1 + (y2 - y1) * (q - x1) / (x2 - x1))
          else interpSegs rest q

/-- Vectorized evaluation of the interpolation function over the array of node
depths; an out-of-range value makes the whole evaluation raise. -/
def interpArray (pts : List (ℚ × ℚ)) : List ℚ → Except String (List ℚ)
  | [] => .ok []
  | d :: ds =>
      match interpSegs pts d with
      | .error e => .error e
      | .ok y =>
          match interpArray pts ds with
          | .error e => .error e
          | .ok ys => .ok (y :: ys)

/-- The depth breakpoints of the salmon curve: `curve_depth = [0, 6.6, 13.1, 1000]`. -/
def curve_depth : List ℚ := [0, 66/10, 131/10, 1000]

/-- The HSI values of the salmon curve: `curve_HSI = [0, 0, 1, 1]`. -/
def curve_HSI : List ℚ := [0, 0, 1, 1]

/-- The salmon depth-to-HSI curve as breakpoint pairs, as passed to
`interp1d(curve_depth, curve_HSI, kind=linear)`. -/
def salmonCurve : List (ℚ × ℚ) := List.zip curve_depth curve_HSI

/-- The result of invoking one Python method: the grid afterwards, the lines
printed, and the Python return value (an array or `None`). -/
structure MethodResult where
  grid : Grid
  printed : List Output
  ret : Option (List ℚ)
deriving DecidableEq, Repr

/-- Embeds `AquaticHabitat.find_velocity_HSI(self, species)`: reads the depth and
velocity fields; for salmon it prints `hsi = v*h`; otherwise it prints
`species not found`.  No `return` statement, so it returns `None`. -/
def find_velocity_HSI (g : Grid) (species : String) : MethodResult :=
  let h := g.surface_water_depth
  let v := g.surface_water_velocity
  if species = "salmon" then
    { grid := g
      printed := [.arr (List.zipWith (fun a b => a * b) v h)]
      ret := none }
  else
    { grid := g
      printed := [.msg "species not found"]
      ret := none }

/-- Embeds `AquaticHabitat.find_depth_HSI(self, species)`: for salmon, interpolates
the salmon curve over the `surface_water__depth` field and prints a header line
followed by the interpolated array; for any other species the body has no
`else` branch, so nothing at all happens.  No `return` statement, so it returns
`None`. -/
def find_depth_HSI (g : Grid) (species : String) :
    Except String MethodResult :=
  if species = "salmon" then
    match interpArray salmonCurve g.surface_water_depth with
    | .error e => .error e
    | .ok depth_HSI =>
        .ok { grid := g
              printed := [.msg "The HSI for depth is:", .arr depth_HSI]
              ret := none }
  else
    .ok { grid := g, printed := [], ret := none }

/-- Embeds `AquaticHabitat.find_CSI(self, HSI)`: prints one fixed message and does
nothing else; no `return` statement, so it returns `None`. -/
def find_CSI (g : Grid) (HSI : Option (List ℚ)) : MethodResult :=
  { grid := g
    printed := [.msg "you have chosen CSI method"]
    ret := none }

/-- The result of one `run_one_step` call: the grid afterwards, all printed
lines, and the names of the component methods invoked, in call order. -/
structure StepResult where
  grid : Grid
  printed : List Output
  calls : List String
deriving DecidableEq, Repr

/-- Embeds `AquaticHabitat.run_one_step(self, dt)`: sets `HSI` to the value
returned by `find_depth_HSI(self._species)` and, when the stored method equals
the string CSI, calls `find_CSI(HSI)`.  It does nothing with `dt`. -/
def run_one_step (self : Self) (g : Grid) (dt : ℚ) :
    Except String StepResult :=
  match find_depth_HSI g self.species with
  | .error e => .error e
  | .ok r1 =>
      if self.method = "CSI" then
        let r2 := find_CSI r1.grid r1.ret
        .ok { grid := r2.grid
              printed := r1.printed ++ r2.printed
              calls := ["find_depth_HSI", "find_CSI"] }
      else
        .ok { grid := r1.grid
              printed := r1.printed
              calls := ["find_depth_HSI"] }

/-- Spec-side formula for the salmon depth-to-HSI map, following the words of
the claims: HSI is 0 for depths at most 6.6, rises linearly as
(d - 6.6) / (13.1 - 6.6) between 6.6 and 13.1, and is 1 above 13.1. -/
def specDepthHSI (d : ℚ) : ℚ :=
  if d ≤ 66/10 then 0
  else if d ≤ 131/10 then (d - 66/10) / (131/10 - 66/10)
  else 1

/-- The salmon curve, written out as explicit breakpoint pairs. -/
theorem salmonCurve_eq :
    salmonCurve = [((0:ℚ), (0:ℚ)), (66/10, 0), (131/10, 1), (1000, 1)] := by
  simp [salmonCurve, curve_depth, curve_HSI]

/-- On the curve domain [0, 1000], the interpolation used by `find_depth_HSI`
computes exactly the piecewise formula `specDepthHSI`. -/
theorem interpSegs_salmon_eq_spec (d : ℚ) (h0 : 0 ≤ d) (h1 : d ≤ 1000) :
    interpSegs salmonCurve d = .ok (specDepthHSI d) := by
  rw [salmonCurve_eq]
  simp only [interpSegs, specDepthHSI]
  split_ifs
  all_goals try (exfalso; linarith)
  all_goals congr 1
  all_goals field_simp

/-- Outside the curve domain, interpolation raises `ValueError`. -/
theorem interpSegs_salmon_out (d : ℚ) (h : d < 0 ∨ 1000 < d) :
    interpSegs salmonCurve d = .error "ValueError" := by
  rw [salmonCurve_eq]
  simp only [interpSegs]
  rcases h with h | h <;> split_ifs <;> first | rfl | (exfalso; linarith)

/-- Any error raised by the salmon interpolation is `ValueError`. -/
theorem interpSegs_salmon_error_msg (d : ℚ) (e : String)
    (h : interpSegs salmonCurve d = .error e) : e = "ValueError" := by
  rw [salmonCurve_eq] at h
  simp only [interpSegs] at h
  split_ifs at h <;> cases h <;> rfl

/-- A successful salmon interpolation means the query was inside [0, 1000]. -/
theorem interpSegs_salmon_ok_domain (d y : ℚ)
    (h : interpSegs salmonCurve d = .ok y) : 0 ≤ d ∧ d ≤ 1000 := by
  constructor
  · by_contra hn
    push_neg at hn
    rw [interpSegs_salmon_out d (Or.inl hn)] at h
    cases h
  · by_contra hn
    push_neg at hn
    rw [interpSegs_salmon_out d (Or.inr hn)] at h
    cases h

/-- The spec-side piecewise formula always lies in the unit interval. -/
theorem specDepthHSI_mem01 (d : ℚ) : 0 ≤ specDepthHSI d ∧ specDepthHSI d ≤ 1 := by
  unfold specDepthHSI
  split_ifs with a b <;> constructor <;> try norm_num
  · exact div_nonneg (by linarith) (by norm_num)
  · rw [div_le_one (by norm_num)]
    linarith

/-- The spec-side piecewise formula is monotone non-decreasing. -/
theorem specDepthHSI_mono (d1 d2 : ℚ) (h : d1 ≤ d2) :
    specDepthHSI d1 ≤ specDepthHSI d2 := by
  unfold specDepthHSI
  split_ifs with a b c d e f g
  all_goals try linarith
  all_goals try (exact div_nonneg (by linarith) (by norm_num))
  all_goals try (rw [div_le_one (by norm_num)]; linarith)
  · rw [div_le_div_iff_of_pos_right (by norm_num)]
    linarith

/-- A successful salmon interpolation value lies in the unit interval. -/
theorem interpSegs_salmon_ok_range (d y : ℚ)
    (h : interpSegs salmonCurve d = .ok y) : 0 ≤ y ∧ y ≤ 1 := by
  obtain ⟨h0, h1⟩ := interpSegs_salmon_ok_domain d y h
  rw [interpSegs_salmon_eq_spec d h0 h1] at h
  cases h
  exact specDepthHSI_mem01 d

/-- Vectorized interpolation agrees with mapping a pointwise function when the
pointwise evaluations all succeed. -/
theorem interpArray_map (pts : List (ℚ × ℚ)) (f : ℚ → ℚ) (l : List ℚ)
    (h : ∀ d ∈ l, interpSegs pts d = .ok (f d)) :
    interpArray pts l = .ok (l.map f) := by
  induction l with
  | nil => rfl
  | cons a l ih =>
      have ha := h a (List.mem_cons_self a l)
      have hl := ih fun d hd => h d (List.mem_cons_of_mem a hd)
      simp only [interpArray, ha, hl, List.map]

/-- Every element of a successful vectorized interpolation comes from a
successful pointwise interpolation of some input depth. -/
theorem interpArray_ok_mem (pts : List (ℚ × ℚ)) (l ys : List ℚ)
    (h : interpArray pts l = .ok ys) :
    ∀ y ∈ ys, ∃ d ∈ l, interpSegs pts d = .ok y := by
  induction l generalizing ys with
  | nil =>
      cases h
      intro y hy
      cases hy
  | cons a l ih =>
      simp only [interpArray] at h
      cases ha : interpSegs pts a with
      | error e => rw [ha] at h; cases h
      | ok y0 =>
          rw [ha] at h
          cases hl : interpArray pts l with
          | error e => rw [hl] at h; cases h
          | ok ys0 =>
              rw [hl] at h
              cases h
              intro y hy
              rcases List.mem_cons.mp hy with hy | hy
              · exact ⟨a, List.mem_cons_self a l, hy ▸ ha⟩
              · obtain ⟨d, hd, hdy⟩ := ih ys0 hl y hy
                exact ⟨d, List.mem_cons_of_mem a hd, hdy⟩

/-- If any input depth lies outside the salmon curve domain, the vectorized
interpolation raises `ValueError`. -/
theorem interpArray_salmon_error (l : List ℚ) (d : ℚ) (hd : d ∈ l)
    (hout : d < 0 ∨ 1000 < d) :
    interpArray salmonCurve l = .error "ValueError" := by
  induction l with
  | nil => cases hd
  | cons a l ih =>
      simp only [interpArray]
      rcases List.mem_cons.mp hd with rfl | hd
      · rw [interpSegs_salmon_out d hout]
      · cases ha : interpSegs salmonCurve a with
        | error e => rw [interpSegs_salmon_error_msg a e ha]
        | ok y => rw [ih hd]

/-- Unfolding `find_depth_HSI` for salmon when the interpolation succeeds. -/
theorem find_depth_HSI_salmon_ok (g : Grid) (ys : List ℚ)
    (hIA : interpArray salmonCurve g.surface_water_depth = .ok ys) :
    find_depth_HSI g "salmon" =
      .ok { grid := g
            printed := [.msg "The HSI for depth is:", .arr ys]
            ret := none } := by
  unfold find_depth_HSI
  rw [if_pos rfl, hIA]

/-- Any successful `find_depth_HSI` call returns the grid unchanged, returns
`None`, and prints either nothing or a header line followed by a successfully
interpolated array. -/
theorem find_depth_HSI_ok_elim (g : Grid) (sp : String) (r : MethodResult)
    (h : find_depth_HSI g sp = .ok r) :
    r.grid = g ∧ r.ret = none ∧
      (r.printed = [] ∨ ∃ ys, interpArray salmonCurve g.surface_water_depth = .ok ys ∧
        r.printed = [.msg "The HSI for depth is:", .arr ys]) := by
  unfold find_depth_HSI at h
  split_ifs at h
  · cases hIA : interpArray salmonCurve g.surface_water_depth with
    | error e => rw [hIA] at h; cases h
    | ok ys =>
        rw [hIA] at h
        cases h
        exact ⟨rfl, rfl, Or.inr ⟨ys, rfl, rfl⟩⟩
  · cases h
    exact ⟨rfl, rfl, Or.inl rfl⟩

/-- Inversion for a successful `run_one_step`: it made a successful
`find_depth_HSI` call for the stored species, then, exactly when the stored
method is CSI, a `find_CSI` call, and nothing else. -/
theorem run_one_step_ok_elim (self : Self) (g : Grid) (dt : ℚ) (r : StepResult)
    (h : run_one_step self g dt = .ok r) :
    ∃ r1 : MethodResult,
      find_depth_HSI g self.species = .ok r1 ∧
      r.grid = r1.grid ∧
      r.calls = "find_depth_HSI" ::
        (if self.method = "CSI" then ["find_CSI"] else []) ∧
      r.printed = r1.printed ++
        (if self.method = "CSI" then (find_CSI r1.grid r1.ret).printed else []) := by
  unfold run_one_step at h
  cases hfd : find_depth_HSI g self.species with
  | error e => rw [hfd] at h; cases h
  | ok r1 =>
      rw [hfd] at h
      refine ⟨r1, rfl, ?_⟩
      split_ifs at h with hm <;> cases h <;> simp [hm, find_CSI]

end AquaticHabitat
namespace AquaticHabitat

/-- A small concrete grid used to instantiate theorems with hypotheses:
one node with depth 1, velocity 2, elevation 0 and no further fields. -/
def gridA : Grid := { surface_water_depth := [1]
                      surface_water_velocity := [2]
                      topographic_elevation := [0]
                      otherFields := [] }

/-- C1: For every component state, grid and time step `dt`, a `run_one_step`
call leaves the grid field `topographic__elevation`, and every other grid node
field, unchanged: the method only computes and prints an HSI array and never
writes to the grid. -/
theorem C1_run_one_step_leaves_grid_unchanged (self : Self) (g : Grid) (dt : ℚ)
    (r : StepResult) (h : run_one_step self g dt = .ok r) :
    r.grid.topographic_elevation = g.topographic_elevation ∧ r.grid = g := by
  obtain ⟨r1, hfd, hgrid, -, -⟩ := run_one_step_ok_elim self g dt r h
  have h1 := (find_depth_HSI_ok_elim g self.species r1 hfd).1
  rw [hgrid, h1]
  exact ⟨rfl, rfl⟩

/-- Witness for C1 at a concrete component, grid and time step. -/
theorem C1_witness :
    (⟨gridA, [.msg "The HSI for depth is:", .arr [0]],
        ["find_depth_HSI"]⟩ : StepResult).grid.topographic_elevation =
      gridA.topographic_elevation ∧
    (⟨gridA, [.msg "The HSI for depth is:", .arr [0]],
        ["find_depth_HSI"]⟩ : StepResult).grid = gridA :=
  C1_run_one_step_leaves_grid_unchanged (init gridA) gridA 10 _
    (by norm_num [run_one_step, find_depth_HSI, interpArray, interpSegs,
      salmonCurve, curve_depth, curve_HSI, init, gridA, Grid.numberOfNodes];
        decide)

/-- C2: For species salmon, `find_depth_HSI` evaluates the four-point
piecewise-linear curve with depths [0, 6.6, 13.1, 1000] and HSI values
[0, 0, 1, 1] pointwise over every node: on depths in [0, 1000] it succeeds and
prints the map of `specDepthHSI` over the depth field, where `specDepthHSI d`
is 0 when d is at most 6.6, (d - 6.6) / (13.1 - 6.6) when d lies between 6.6
and 13.1, and 1 when d is at least 13.1. -/
theorem C2_find_depth_HSI_piecewise (g : Grid)
    (hdom : ∀ d ∈ g.surface_water_depth, 0 ≤ d ∧ d ≤ 1000) :
    find_depth_HSI g "salmon" =
      .ok { grid := g
            printed := [.msg "The HSI for depth is:",
              .arr (g.surface_water_depth.map specDepthHSI)]
            ret := none } ∧
    ∀ d : ℚ,
      (d ≤ 66/10 → specDepthHSI d = 0) ∧
      (66/10 ≤ d → d ≤ 131/10 →
        specDepthHSI d = (d - 66/10) / (131/10 - 66/10)) ∧
      (131/10 ≤ d → specDepthHSI d = 1) := by
  constructor
  · exact find_depth_HSI_salmon_ok g _ (interpArray_map salmonCurve specDepthHSI
      g.surface_water_depth fun d hd =>
        interpSegs_salmon_eq_spec d (hdom d hd).1 (hdom d hd).2)
  · intro d
    unfold specDepthHSI
    refine ⟨fun h1 => by rw [if_pos h1], fun h1 h2 => ?_, fun h1 => ?_⟩
    · split_ifs with ha
      · have : d = 66/10 := le_antisymm ha h1
        rw [this]
        norm_num
      · rfl
    · split_ifs with ha hb
      · exfalso; linarith
      · have : d = 131/10 := le_antisymm hb h1
        rw [this]
        norm_num
      · rfl

/-- Witness for C2 on a concrete three-node grid with depths 5, 10 and 20. -/
theorem C2_witness :
    find_depth_HSI ⟨[5, 10, 20], [0], [0], []⟩ "salmon" =
      .ok { grid := ⟨[5, 10, 20], [0], [0], []⟩
            printed := [.msg "The HSI for depth is:",
              .arr (([5, 10, 20] : List ℚ).map specDepthHSI)]
            ret := none } :=
  (C2_find_depth_HSI_piecewise ⟨[5, 10, 20], [0], [0], []⟩
    (by intro d hd; fin_cases hd <;> norm_num)).1

/-- C3 fails on the code: a node depth outside [0, 1000] does not get clamped
to the endpoint HSI value; instead the interpolation raises `ValueError`, so
`find_depth_HSI` does not succeed. Concretely, depth 1001 raises. -/
theorem C3_counterexample :
    find_depth_HSI ⟨[1001], [0], [0], []⟩ "salmon" = .error "ValueError" := by
  norm_num [find_depth_HSI, interpArray, interpSegs, salmonCurve, curve_depth,
    curve_HSI]

/-- C3 amended: the depth-HSI evaluation does not clamp outside the curve
range; whenever some node depth lies below 0 or above 1000, `find_depth_HSI`
for salmon raises `ValueError` instead of succeeding (inside [0, 1000] the
flat end segments of the curve already give the endpoint values 0 and 1). -/
theorem C3_amended_out_of_range_raises (g : Grid) (d : ℚ)
    (hd : d ∈ g.surface_water_depth) (hout : d < 0 ∨ 1000 < d) :
    find_depth_HSI g "salmon" = .error "ValueError" := by
  unfold find_depth_HSI
  rw [if_pos rfl, interpArray_salmon_error g.surface_water_depth d hd hout]

/-- Witness for the amended C3 at the concrete out-of-range depth 1001. -/
theorem C3_witness :
    find_depth_HSI ⟨[2, 1001], [0], [0], []⟩ "salmon" = .error "ValueError" :=
  C3_amended_out_of_range_raises ⟨[2, 1001], [0], [0], []⟩ 1001
    (by norm_num) (by norm_num)

/-- C4 fails on the code: the velocity-based HSI is the raw product v*h, which
is not confined to [0, 1]. On a one-node grid with depth 1 and velocity 2 the
printed velocity HSI is 2, which exceeds 1. -/
theorem C4_counterexample :
    (find_velocity_HSI gridA "salmon").printed = [.arr [2]] ∧ ¬ ((2:ℚ) ≤ 1) := by
  constructor
  · norm_num [find_velocity_HSI, gridA]
  · norm_num

/-- C4 amended: every HSI value that the depth lookup produces is a normalized
score in [0, 1]: whenever `find_depth_HSI` for salmon succeeds, every element
of every printed array lies in [0, 1]. The velocity product v*h carries no
such bound. -/
theorem C4_amended_depth_HSI_in_unit_interval (g : Grid) (r : MethodResult)
    (h : find_depth_HSI g "salmon" = .ok r) (xs : List ℚ)
    (hxs : Output.arr xs ∈ r.printed) (x : ℚ) (hx : x ∈ xs) :
    0 ≤ x ∧ x ≤ 1 := by
  obtain ⟨-, -, hpr | ⟨ys, hIA, hpr⟩⟩ := find_depth_HSI_ok_elim g "salmon" r h
  · rw [hpr] at hxs
    cases hxs
  · rw [hpr] at hxs
    rcases List.mem_cons.mp hxs with hxs | hxs
    · cases hxs
    · rcases List.mem_cons.mp hxs with hxs | hxs
      · cases hxs
        obtain ⟨d, -, hdy⟩ := interpArray_ok_mem salmonCurve
          g.surface_water_depth xs hIA x hx
        exact interpSegs_salmon_ok_range d x hdy
      · cases hxs

/-- Witness for the amended C4: the value printed for the one-node grid with
depth 10 is 34/65, which lies in [0, 1]. -/
theorem C4_witness : 0 ≤ (34/65 : ℚ) ∧ (34/65 : ℚ) ≤ 1 :=
  C4_amended_depth_HSI_in_unit_interval ⟨[10], [0], [0], []⟩
    ⟨⟨[10], [0], [0], []⟩, [.msg "The HSI for depth is:", .arr [34/65]], none⟩
    (by norm_num [find_depth_HSI, interpArray, interpSegs, salmonCurve,
      curve_depth, curve_HSI])
    [34/65] (by simp) (34/65) (by simp)

/-- C5: for salmon, `find_velocity_HSI` prints exactly the elementwise product
of the velocity field and the depth field (a multiplicative, not interpolated,
formula), and `run_one_step` never invokes `find_velocity_HSI`, whatever the
stored method flag. -/
theorem C5_velocity_HSI_product_and_unused :
    (∀ g : Grid, find_velocity_HSI g "salmon" =
      { grid := g
        printed := [.arr (List.zipWith (fun a b => a * b)
          g.surface_water_velocity g.surface_water_depth)]
        ret := none }) ∧
    ∀ (self : Self) (g : Grid) (dt : ℚ) (r : StepResult),
      run_one_step self g dt = .ok r → "find_velocity_HSI" ∉ r.calls := by
  constructor
  · intro g
    rfl
  · intro self g dt r h
    obtain ⟨r1, -, -, hcalls, -⟩ := run_one_step_ok_elim self g dt r h
    rw [hcalls]
    split_ifs <;> simp

/-- Witness for C5 at a concrete grid, component and step. -/
theorem C5_witness :
    find_velocity_HSI gridA "salmon" =
      { grid := gridA
        printed := [.arr (List.zipWith (fun a b => a * b)
          gridA.surface_water_velocity gridA.surface_water_depth)]
        ret := none } ∧
    "find_velocity_HSI" ∉
      (⟨gridA, [.msg "The HSI for depth is:", .arr [0]],
        ["find_depth_HSI"]⟩ : StepResult).calls :=
  ⟨C5_velocity_HSI_product_and_unused.1 gridA,
    C5_velocity_HSI_product_and_unused.2 (init gridA) gridA 10 _
      (by norm_num [run_one_step, find_depth_HSI, interpArray, interpSegs,
        salmonCurve, curve_depth, curve_HSI, init, gridA, Grid.numberOfNodes];
          decide)⟩

/-- C6 fails on the code: for an unknown species, `find_depth_HSI` does not
print any message at all (its body has no else branch); on the species trout
it returns with an empty printed output. -/
theorem C6_counterexample :
    ∃ r : MethodResult, find_depth_HSI ⟨[3], [4], [5], []⟩ "trout" = .ok r ∧
      ∀ s : String, Output.msg s ∉ r.printed := by
  refine ⟨{ grid := ⟨[3], [4], [5], []⟩, printed := [], ret := none }, ?_, ?_⟩
  · unfold find_depth_HSI
    rw [if_neg (by decide)]
  · intro s hs
    cases hs

/-- C6 amended: for every species other than salmon, `find_velocity_HSI`
prints the message `species not found` while `find_depth_HSI` silently does
nothing; neither performs any computation, raises, or changes any state. -/
theorem C6_amended_unknown_species (g : Grid) (sp : String)
    (h : sp ≠ "salmon") :
    find_velocity_HSI g sp =
      { grid := g, printed := [.msg "species not found"], ret := none } ∧
    find_depth_HSI g sp = .ok { grid := g, printed := [], ret := none } := by
  constructor
  · unfold find_velocity_HSI
    rw [if_neg h]
  · unfold find_depth_HSI
    rw [if_neg h]

/-- Witness for the amended C6 at the concrete species trout. -/
theorem C6_witness :
    find_velocity_HSI gridA "trout" =
      { grid := gridA, printed := [.msg "species not found"], ret := none } ∧
    find_depth_HSI gridA "trout" =
      .ok { grid := gridA, printed := [], ret := none } :=
  C6_amended_unknown_species gridA "trout" (by decide)

/-- C7: `run_one_step` dispatches on the stored method flag: for every `dt` it
performs the depth-HSI lookup for the stored species, additionally calls
`find_CSI` exactly when the stored method equals CSI, and otherwise leaves the
grid state untouched. -/
theorem C7_run_one_step_dispatch (self : Self) (g : Grid) (dt : ℚ)
    (r : StepResult) (h : run_one_step self g dt = .ok r) :
    ∃ r1 : MethodResult,
      find_depth_HSI g self.species = .ok r1 ∧
      r.calls = "find_depth_HSI" ::
        (if self.method = "CSI" then ["find_CSI"] else []) ∧
      r.grid = g ∧
      r.printed = r1.printed ++
        (if self.method = "CSI" then (find_CSI g r1.ret).printed else []) := by
  obtain ⟨r1, hfd, hgrid, hcalls, hpr⟩ := run_one_step_ok_elim self g dt r h
  have h1 := (find_depth_HSI_ok_elim g self.species r1 hfd).1
  refine ⟨r1, hfd, hcalls, by rw [hgrid, h1], ?_⟩
  rw [hpr, h1]

/-- Witness for C7 at a concrete component whose stored method is CSI. -/
theorem C7_witness :
    ∃ r1 : MethodResult,
      find_depth_HSI gridA "salmon" = .ok r1 ∧
      (⟨gridA, [.msg "The HSI for depth is:", .arr [0],
          .msg "you have chosen CSI method"],
        ["find_depth_HSI", "find_CSI"]⟩ : StepResult).calls =
        "find_depth_HSI" ::
          (if "CSI" = "CSI" then ["find_CSI"] else []) ∧
      (⟨gridA, [.msg "The HSI for depth is:", .arr [0],
          .msg "you have chosen CSI method"],
        ["find_depth_HSI", "find_CSI"]⟩ : StepResult).grid = gridA ∧
      (⟨gridA, [.msg "The HSI for depth is:", .arr [0],
          .msg "you have chosen CSI method"],
        ["find_depth_HSI", "find_CSI"]⟩ : StepResult).printed =
        r1.printed ++
          (if "CSI" = "CSI" then (find_CSI gridA r1.ret).printed else []) :=
  C7_run_one_step_dispatch ⟨"salmon", "CSI", [0], [0]⟩ gridA 10 _
    (by norm_num [run_one_step, find_depth_HSI, find_CSI, interpArray,
      interpSegs, salmonCurve, curve_depth, curve_HSI, gridA])

/-- C8: the CSI aggregation step performs no computation: for every grid and
every input value HSI, `find_CSI` only prints one fixed message, returns None,
and leaves the grid unchanged. -/
theorem C8_find_CSI_is_noop (g : Grid) (HSI : Option (List ℚ)) :
    find_CSI g HSI =
      { grid := g, printed := [.msg "you have chosen CSI method"], ret := none } :=
  rfl

/-- C9: the salmon depth-to-HSI map is monotone non-decreasing on the curve
domain: for depths d1 at most d2, both in [0, 1000], the interpolated HSI at
d1 is at most the interpolated HSI at d2. -/
theorem C9_depth_HSI_monotone (d1 d2 y1 y2 : ℚ) (h0 : 0 ≤ d1) (h12 : d1 ≤ d2)
    (h2 : d2 ≤ 1000) (e1 : interpSegs salmonCurve d1 = .ok y1)
    (e2 : interpSegs salmonCurve d2 = .ok y2) : y1 ≤ y2 := by
  rw [interpSegs_salmon_eq_spec d1 h0 (le_trans h12 h2)] at e1
  rw [interpSegs_salmon_eq_spec d2 (le_trans h0 h12) h2] at e2
  cases e1
  cases e2
  exact specDepthHSI_mono d1 d2 h12

/-- Witness for C9 at the concrete depths 5 and 20, whose HSI values are 0
and 1. -/
theorem C9_witness : (0 : ℚ) ≤ 1 :=
  C9_depth_HSI_monotone 5 20 0 1 (by norm_num) (by norm_num) (by norm_num)
    (by norm_num [interpSegs, salmonCurve, curve_depth, curve_HSI])
    (by norm_num [interpSegs, salmonCurve, curve_depth, curve_HSI])

/-- C10: the time step argument is ignored: for every component state and grid
and any two time steps, `run_one_step` produces identical results, printed
output and call sequence included. -/
theorem C10_run_one_step_ignores_dt (self : Self) (g : Grid) (dt1 dt2 : ℚ) :
    run_one_step self g dt1 = run_one_step self g dt2 :=
  rfl

end AquaticHabitat
